import Mathlib

/-!
Shallow embedding of the retrieval and answer-synthesis engine of the
h2wchatbot repository (a FastAPI + Supabase RAG chatbot), covering the code
of src/routes_chat.py and src/openai_service.py that the verified claims
are about.  External collaborators (the OpenAI chat/embedding API and the
Supabase tables) are modelled as explicit inputs: the generated answer text
is a parameter and database tables are lists of records.  Floating-point
similarity scores are modelled as rationals.
-/

namespace H2W

/-- A chunk record as assembled in routes_chat.py (lines 77-82): the dict
built from a document_embeddings row (document_id, chunk_text, similarity),
later augmented in the filtering loop (lines 124-126) with the parent
document's metadata (title, url, file_type). -/
structure Chunk where
  document_id : String
  chunk_text : String
  similarity : ℚ
  document_title : String := ""
  document_url : String := ""
  file_type : String := ""
  deriving DecidableEq

/-- The four uncertainty phrases hard-coded in
openai_service.generate_answer (lines 78-83). -/
def uncertaintyPhrases : List String :=
  ["kan niet beantwoorden", "niet in de beschikbare", "weet ik niet", "geen informatie"]

/-- Substring test via character lists: does pat occur contiguously inside
hay?  Models the Python expression pat in hay. -/
def containsSubL (hay pat : List Char) : Bool :=
  hay.tails.any (fun t => pat.isPrefixOf t)

/-- Python str.lower() on the character sequence of a string (the answers
and phrases involved are ASCII). -/
def lowerChars (s : String) : List Char := s.toList.map Char.toLower

/-- Models the check in openai_service.generate_answer lines 78-83:
any(phrase in answer.lower() for phrase in [...]). -/
def hasUncertainty (answer : String) : Bool :=
  uncertaintyPhrases.any (fun p => containsSubL (lowerChars answer) p.toList)

/-- Round-half-to-even on rationals: the idealised model of the Python
built-in round applied to the exact value. -/
def bankersRound (x : ℚ) : ℤ :=
  let n := ⌊x⌋
  let r := x - (n : ℚ)
  if r < 1/2 then n
  else if 1/2 < r then n + 1
  else if n % 2 = 0 then n else n + 1

/-- Python round(x, 1): round to one decimal digit. -/
def round1 (x : ℚ) : ℚ := (bankersRound (x * 10) : ℚ) / 10

/-- Models openai_service.OpenAIService.generate_answer (lines 28-91).  The
external chat-completion call is modelled by taking the generated answer
text as a parameter; the function returns the (answer, confidence) pair
exactly as the code computes it: confidence = round(mean similarity * 100,
1) over the chunks passed in, then overwritten with min(confidence, 30.0)
when the lowercased answer contains one of the uncertaintyPhrases. -/
def generate_answer (answer : String) (context_chunks : List Chunk) :
    String × ℚ :=
  if context_chunks.isEmpty then
    ("Ik kan helaas geen antwoord vinden op je vraag in de beschikbare documenten.", 0)
  else
    let avg_similarity :=
      ((context_chunks.map (fun c => c.similarity)).sum) / (context_chunks.length : ℚ)
    let confidence := round1 (avg_similarity * 100)
    let confidence := if hasUncertainty answer then min confidence 30 else confidence
    (answer, confidence)

lemma generate_answer_snd_of_uncertain (answer : String) (chunks : List Chunk)
    (hne : chunks ≠ []) (hu : hasUncertainty answer = true) :
    (generate_answer answer chunks).2 ≤ 30 := by
  have he : chunks.isEmpty = false := by
    cases chunks with
    | nil => exact absurd rfl hne
    | cons a t => rfl
  simp only [generate_answer, he, Bool.false_eq_true, if_false, hu, if_true]
  exact min_le_right _ _

lemma generate_answer_snd_of_certain (answer : String) (chunks : List Chunk)
    (hne : chunks ≠ []) (hu : hasUncertainty answer = false) :
    (generate_answer answer chunks).2 =
      round1 ((chunks.map (fun c => c.similarity)).sum / (chunks.length : ℚ) * 100) := by
  have he : chunks.isEmpty = false := by
    cases chunks with
    | nil => exact absurd rfl hne
    | cons a t => rfl
  simp only [generate_answer, he, Bool.false_eq_true, if_false, hu]

lemma sum_gt_mul_length_of_forall_gt (b : ℚ) :
    ∀ l : List ℚ, (∀ x ∈ l, b < x) →
      b * l.length ≤ l.sum ∧ (l ≠ [] → b * l.length < l.sum) := by
  intro l
  induction l with
  | nil => intro _; simp
  | cons a t ih =>
    intro h
    have ha : b < a := h a (List.mem_cons_self a t)
    have ht := ih (fun x hx => h x (List.mem_cons_of_mem a hx))
    constructor
    · simp only [List.sum_cons, List.length_cons]
      push_cast
      nlinarith [ht.1]
    · intro _
      simp only [List.sum_cons, List.length_cons]
      push_cast
      nlinarith [ht.1]

lemma lt_mean_of_forall_lt (b : ℚ) (l : List ℚ) (hne : l ≠ [])
    (h : ∀ x ∈ l, b < x) : b < l.sum / (l.length : ℚ) := by
  have hlen : (0:ℚ) < l.length := by
    cases l with
    | nil => exact absurd rfl hne
    | cons a t =>
      have : (0:ℕ) < (a :: t).length := by simp
      exact_mod_cast this
  rw [lt_div_iff₀ hlen]
  have := (sum_gt_mul_length_of_forall_gt b l h).2 hne
  linarith

lemma le_bankersRound (m : ℤ) (x : ℚ) (h : (m:ℚ) ≤ x) : m ≤ bankersRound x := by
  have hn : m ≤ ⌊x⌋ := Int.le_floor.mpr h
  simp only [bankersRound]
  split_ifs <;> omega

lemma le_round1 (m : ℤ) (x : ℚ) (h : (m:ℚ) ≤ x) : (m:ℚ) ≤ round1 (x) := by
  have hb : 10 * m ≤ bankersRound (x * 10) := by
    apply le_bankersRound
    push_cast
    linarith
  simp only [round1]
  rw [le_div_iff₀ (by norm_num : (0:ℚ) < 10)]
  have hc : ((10 * m : ℤ) : ℚ) ≤ (bankersRound (x * 10) : ℚ) := by exact_mod_cast hb
  push_cast at hc ⊢
  linarith

/-- C3 (corrected): for every non-empty chunk list, whenever the generated
answer text contains one of the four uncertainty phrases fixed in the code
(case-insensitive substring match), the returned confidence is at most 30;
in particular, with mean chunk similarity 0.9 and the answer
"Dat weet ik niet" (which contains the code's phrase "weet ik niet") the
returned confidence is at most 30.  The literal "Ik weet het niet" of the
original claim contains none of the four phrases, so it is not clamped. -/
theorem c3_uncertainty_clamp :
    (∀ (answer : String) (chunks : List Chunk), chunks ≠ [] →
      hasUncertainty answer = true → (generate_answer answer chunks).2 ≤ 30) ∧
    (generate_answer "Dat weet ik niet"
      [{ document_id := "d1", chunk_text := "t", similarity := 9/10 }]).2 ≤ 30 :=
  ⟨fun a c h hu => generate_answer_snd_of_uncertain a c h hu,
   generate_answer_snd_of_uncertain _ _ (by simp) (by decide)⟩

/-- C3 witness: the clamp theorem applied at a concrete uncertain answer. -/
theorem c3_uncertainty_clamp_witness :
    (generate_answer "geen informatie beschikbaar"
      [{ document_id := "d2", chunk_text := "u", similarity := 1/2 }]).2 ≤ 30 :=
  c3_uncertainty_clamp.1 "geen informatie beschikbaar"
    [{ document_id := "d2", chunk_text := "u", similarity := 1/2 }]
    (by simp) (by decide)

/-- C3 counterexample: with mean similarity 0.9 the answer
"Ik weet het niet" yields confidence 90, not at most 30, because it does
not contain any of the code's four uncertainty phrases. -/
theorem c3_counterexample :
    (generate_answer "Ik weet het niet"
      [{ document_id := "d1", chunk_text := "t", similarity := 9/10 }]).2 = 90 ∧
    ¬ (generate_answer "Ik weet het niet"
      [{ document_id := "d1", chunk_text := "t", similarity := 9/10 }]).2 ≤ 30 := by
  have h90 : (generate_answer "Ik weet het niet"
      [{ document_id := "d1", chunk_text := "t", similarity := 9/10 }]).2 = 90 := by
    rw [generate_answer_snd_of_certain _ _ (by simp) (by decide)]
    simp only [List.map_cons, List.map_nil, List.sum_cons, List.sum_nil,
      List.length_cons, List.length_nil]
    norm_num [round1, bankersRound]
  refine ⟨h90, ?_⟩
  rw [h90]
  norm_num

/-- C5 (confirmed): for every non-empty chunk list whose generated answer
contains no uncertainty phrase, the confidence equals
round(mean(similarity) * 100, 1); in particular a mean similarity of 0.78
(chunks 0.85 and 0.71) yields confidence 78.0. -/
theorem c5_base_score :
    (∀ (answer : String) (chunks : List Chunk), chunks ≠ [] →
      hasUncertainty answer = false →
      (generate_answer answer chunks).2 =
        round1 ((chunks.map (fun c => c.similarity)).sum / (chunks.length : ℚ) * 100)) ∧
    ((([{ document_id := "d1", chunk_text := "t1", similarity := 85/100 },
        { document_id := "d2", chunk_text := "t2", similarity := 71/100 }] :
          List Chunk).map (fun c => c.similarity)).sum / 2 = (78:ℚ)/100 ∧
      (generate_answer "Prima antwoord"
        [{ document_id := "d1", chunk_text := "t1", similarity := 85/100 },
         { document_id := "d2", chunk_text := "t2", similarity := 71/100 }]).2 = 78) := by
  refine ⟨fun a c h hu => generate_answer_snd_of_certain a c h hu, ?_, ?_⟩
  · simp only [List.map_cons, List.map_nil, List.sum_cons, List.sum_nil]
    norm_num
  · rw [generate_answer_snd_of_certain _ _ (by simp) (by decide)]
    simp only [List.map_cons, List.map_nil, List.sum_cons, List.sum_nil,
      List.length_cons, List.length_nil]
    norm_num [round1, bankersRound]

/-- C5 witness: the base-score theorem applied at a concrete input. -/
theorem c5_base_score_witness :
    (generate_answer "Het staat in het document"
      [{ document_id := "d3", chunk_text := "v", similarity := 1/2 }]).2 =
      round1 ((([{ document_id := "d3", chunk_text := "v", similarity := 1/2 }] :
        List Chunk).map (fun c => c.similarity)).sum /
        (([{ document_id := "d3", chunk_text := "v", similarity := 1/2 }] :
          List Chunk).length : ℚ) * 100) :=
  c5_base_score.1 "Het staat in het document"
    [{ document_id := "d3", chunk_text := "v", similarity := 1/2 }]
    (by simp) (by decide)

/-- C10 (corrected): for every non-empty chunk list whose similarities all
lie in (0.7, 1], the returned confidence is at most 30 or at least 70; it
never lies in the open interval (30, 70).  Rounding can pull it down to
exactly 70, so "strictly greater than 70" in the original claim fails. -/
theorem c10_confidence_gap (answer : String) (chunks : List Chunk)
    (hne : chunks ≠ [])
    (hall : ∀ c ∈ chunks, (7:ℚ)/10 < c.similarity ∧ c.similarity ≤ 1) :
    (generate_answer answer chunks).2 ≤ 30 ∨ 70 ≤ (generate_answer answer chunks).2 := by
  cases hu : hasUncertainty answer with
  | true => exact Or.inl (generate_answer_snd_of_uncertain answer chunks hne hu)
  | false =>
    right
    rw [generate_answer_snd_of_certain answer chunks hne hu]
    have hmapne : chunks.map (fun c => c.similarity) ≠ [] := by
      cases chunks with
      | nil => exact absurd rfl hne
      | cons a t => simp
    have hmean : (7:ℚ)/10 <
        (chunks.map (fun c => c.similarity)).sum /
          ((chunks.map (fun c => c.similarity)).length : ℚ) := by
      apply lt_mean_of_forall_lt _ _ hmapne
      intro x hx
      rcases List.mem_map.mp hx with ⟨c, hc, rfl⟩
      exact (hall c hc).1
    rw [List.length_map] at hmean
    have : (70:ℚ) ≤
        (chunks.map (fun c => c.similarity)).sum / (chunks.length : ℚ) * 100 := by
      nlinarith
    exact_mod_cast le_round1 70 _ this

/-- C10 witness: the gap theorem applied at a concrete one-chunk list. -/
theorem c10_confidence_gap_witness :
    (generate_answer "Prima"
      [{ document_id := "d1", chunk_text := "t", similarity := 8/10 }]).2 ≤ 30 ∨
    70 ≤ (generate_answer "Prima"
      [{ document_id := "d1", chunk_text := "t", similarity := 8/10 }]).2 :=
  c10_confidence_gap "Prima"
    [{ document_id := "d1", chunk_text := "t", similarity := 8/10 }]
    (by simp)
    (by intro c hc; rw [List.mem_singleton] at hc; subst hc; norm_num)

/-- C10 counterexample: a single chunk of similarity 0.7001 (inside the
interval (0.7, 1]) with a phrase-free answer yields confidence exactly 70,
which lies in the interval (30, 70] the original claim excludes. -/
theorem c10_counterexample :
    ((7:ℚ)/10 < 7001/10000 ∧ (7001:ℚ)/10000 ≤ 1) ∧
    (generate_answer "Prima"
      [{ document_id := "d1", chunk_text := "t", similarity := 7001/10000 }]).2 = 70 ∧
    ¬ (70 < (generate_answer "Prima"
        [{ document_id := "d1", chunk_text := "t", similarity := 7001/10000 }]).2 ∨
      (generate_answer "Prima"
        [{ document_id := "d1", chunk_text := "t", similarity := 7001/10000 }]).2 ≤ 30) := by
  have h70 : (generate_answer "Prima"
      [{ document_id := "d1", chunk_text := "t", similarity := 7001/10000 }]).2 = 70 := by
    rw [generate_answer_snd_of_certain _ _ (by simp) (by decide)]
    simp only [List.map_cons, List.map_nil, List.sum_cons, List.sum_nil,
      List.length_cons, List.length_nil]
    norm_num [round1, bankersRound]
  refine ⟨⟨by norm_num, by norm_num⟩, h70, ?_⟩
  rw [h70]
  norm_num

/-- Dot product (np.dot) of two vectors, modelled on rational coordinate
lists. -/
def dotList (v1 v2 : List ℚ) : ℚ := (List.zipWith (fun a b => a * b) v1 v2).sum

/-- Sum of squared coordinates; np.linalg.norm is its square root. -/
def normSq (v : List ℚ) : ℚ := (v.map (fun x => x * x)).sum

/-- Euclidean norm of the vector (np.linalg.norm). -/
noncomputable def norm2 (v : List ℚ) : ℝ := Real.sqrt ((normSq v : ℚ) : ℝ)

/-- Models openai_service.OpenAIService.cosine_similarity (lines 122-135): returns
0.0 when either norm is zero (the guard is stated on the sums of squares,
which vanish exactly when the corresponding Euclidean norms do), otherwise
the dot product divided by the product of the norms. -/
noncomputable def cosine_similarity (v1 v2 : List ℚ) : ℝ :=
  if normSq v1 = 0 ∨ normSq v2 = 0 then 0
  else ((dotList v1 v2 : ℚ) : ℝ) / (norm2 v1 * norm2 v2)

lemma normSq_nonneg (v : List ℚ) : 0 ≤ normSq v := by
  apply List.sum_nonneg
  intro x hx
  rcases List.mem_map.mp hx with ⟨y, _, rfl⟩
  exact mul_self_nonneg y

lemma norm2_eq_zero_iff (v : List ℚ) : norm2 v = 0 ↔ normSq v = 0 := by
  simp only [norm2]
  rw [Real.sqrt_eq_zero']
  constructor
  · intro h
    have h2 : (normSq v : ℝ) = 0 := le_antisymm h (by exact_mod_cast normSq_nonneg v)
    exact_mod_cast h2
  · intro h
    rw [h]
    norm_num

/-- C7 (confirmed): cosine_similarity returns 0.0 whenever either input
vector has zero Euclidean norm, and in the remaining case the division it
performs has a non-zero denominator, so it never divides by zero. -/
theorem c7_zero_norm_guard (v1 v2 : List ℚ) :
    ((norm2 v1 = 0 ∨ norm2 v2 = 0) → cosine_similarity v1 v2 = 0) ∧
    (norm2 v1 ≠ 0 → norm2 v2 ≠ 0 →
      norm2 v1 * norm2 v2 ≠ 0 ∧
      cosine_similarity v1 v2 = ((dotList v1 v2 : ℚ) : ℝ) / (norm2 v1 * norm2 v2)) := by
  constructor
  · intro h
    have hs : normSq v1 = 0 ∨ normSq v2 = 0 := by
      rcases h with h | h
      · exact Or.inl ((norm2_eq_zero_iff v1).mp h)
      · exact Or.inr ((norm2_eq_zero_iff v2).mp h)
    simp only [cosine_similarity, if_pos hs]
  · intro h1 h2
    have hs : ¬ (normSq v1 = 0 ∨ normSq v2 = 0) := by
      intro hc
      rcases hc with hc | hc
      · exact h1 ((norm2_eq_zero_iff v1).mpr hc)
      · exact h2 ((norm2_eq_zero_iff v2).mpr hc)
    exact ⟨mul_ne_zero h1 h2, by simp only [cosine_similarity, if_neg hs]⟩

/-- C7 witness: the guard theorem applied to a zero vector. -/
theorem c7_zero_norm_guard_witness :
    cosine_similarity [(0:ℚ), 0] [(1:ℚ), 2] = 0 :=
  (c7_zero_norm_guard [(0:ℚ), 0] [(1:ℚ), 2]).1
    (Or.inl (by
      rw [norm2_eq_zero_iff]
      norm_num [normSq]))

/-- Ranking step of routes_chat.ask_question (lines 65-88).  Line 65 of the
source reads chunk_similarities = [:10], which is a Python SyntaxError; the
surrounding code evidently intends the empty-list initialisation modelled
here.  The loop keeps exactly the chunks whose similarity exceeds 0.7
(lines 77-82), then list.sort(key=similarity, reverse=True) sorts them
descending (Python sort is stable), and [:5] truncates to at most five. -/
def rankChunks (chunks : List Chunk) : List Chunk :=
  ((chunks.filter (fun c => decide ((7:ℚ)/10 < c.similarity))).mergeSort
    (fun a b => decide (b.similarity ≤ a.similarity))).take 5

/-- C4 (code_bug): as written, line 65 of routes_chat.py is a syntax error,
so the ranking step can never run; this theorem proves the claimed
properties of the evidently intended ranking: every kept chunk has
similarity strictly above 0.7 and comes from the input list, at most five
chunks survive, and the output is sorted descending by similarity. -/
theorem c4_ranker_properties (chunks : List Chunk) :
    (∀ c ∈ rankChunks chunks, (7:ℚ)/10 < c.similarity) ∧
    (rankChunks chunks).length ≤ 5 ∧
    (rankChunks chunks).Pairwise (fun a b => b.similarity ≤ a.similarity) ∧
    (∀ c ∈ rankChunks chunks, c ∈ chunks) := by
  have hsub : List.Sublist (rankChunks chunks)
      ((chunks.filter (fun c => decide ((7:ℚ)/10 < c.similarity))).mergeSort
        (fun a b => decide (b.similarity ≤ a.similarity))) :=
    List.take_sublist _ _
  have hmem : ∀ c ∈ rankChunks chunks,
      c ∈ chunks.filter (fun c => decide ((7:ℚ)/10 < c.similarity)) := by
    intro c hc
    exact List.mem_mergeSort.mp (hsub.mem hc)
  refine ⟨?_, ?_, ?_, ?_⟩
  · intro c hc
    have := List.mem_filter.mp (hmem c hc)
    exact of_decide_eq_true this.2
  · exact List.length_take_le 5 _
  · have hsorted :
        ((chunks.filter (fun c => decide ((7:ℚ)/10 < c.similarity))).mergeSort
          (fun a b => decide (b.similarity ≤ a.similarity))).Pairwise
          (fun a b => decide (b.similarity ≤ a.similarity) = true) := by
      apply List.sorted_mergeSort
      · intro a b c hab hbc
        have h1 := of_decide_eq_true hab
        have h2 := of_decide_eq_true hbc
        exact decide_eq_true (le_trans h2 h1)
      · intro a b
        rcases le_total b.similarity a.similarity with h | h
        · simp [decide_eq_true h]
        · simp [decide_eq_true h]
    have := hsorted.sublist hsub
    exact this.imp (fun h => of_decide_eq_true h)
  · intro c hc
    exact (List.mem_filter.mp (hmem c hc)).1

/-- C4 witness: the ranker-properties theorem applied at a concrete list,
with the membership hypothesis discharged by evaluating the ranker. -/
theorem c4_ranker_properties_witness :
    (7:ℚ)/10 <
      ({ document_id := "d1", chunk_text := "t", similarity := 9/10 } : Chunk).similarity ∧
    (rankChunks [{ document_id := "d1", chunk_text := "t", similarity := 9/10 }]).length ≤ 5 :=
  ⟨(c4_ranker_properties [{ document_id := "d1", chunk_text := "t", similarity := 9/10 }]).1
      { document_id := "d1", chunk_text := "t", similarity := 9/10 }
      (by norm_num [rankChunks, List.mergeSort]),
   (c4_ranker_properties [{ document_id := "d1", chunk_text := "t", similarity := 9/10 }]).2.1⟩

/-- A source citation as built in routes_chat.ask_question lines 142-152,
mirroring models.SourceDocument. -/
structure SourceDocument where
  document_id : String
  document_title : String
  document_url : String
  file_type : String
  deriving DecidableEq

/-- The loop of routes_chat.ask_question lines 142-152: walk the filtered
chunks in ranked order, keep a seen set of document ids, and append one
SourceDocument per first-seen document_id. -/
def buildSourcesAux : List Chunk → List String → List SourceDocument
  | [], _ => []
  | c :: rest, seen =>
    if c.document_id ∈ seen then buildSourcesAux rest seen
    else
      { document_id := c.document_id, document_title := c.document_title,
        document_url := c.document_url, file_type := c.file_type } ::
        buildSourcesAux rest (c.document_id :: seen)

/-- The sources list of the response (lines 142-152), starting from an
empty seen set. -/
def buildSources (chunks : List Chunk) : List SourceDocument :=
  buildSourcesAux chunks []

/-- Reference function: the distinct elements of a list in order of first
occurrence. -/
def firstOccurrences : List String → List String
  | [] => []
  | a :: l => a :: firstOccurrences (l.filter (fun b => decide (b ≠ a)))
termination_by l => l.length
decreasing_by
  simp only [List.length_cons]
  exact Nat.lt_succ_of_le (List.length_filter_le _ _)

lemma mem_firstOccurrences (l : List String) (x : String) :
    x ∈ firstOccurrences l ↔ x ∈ l := by
  induction l using firstOccurrences.induct with
  | case1 => simp [firstOccurrences]
  | case2 a t ih =>
    rw [firstOccurrences]
    by_cases hx : x = a
    · subst hx; simp
    · simp only [List.mem_cons, hx, false_or]
      rw [ih]
      simp [List.mem_filter, hx]

lemma nodup_firstOccurrences (l : List String) : (firstOccurrences l).Nodup := by
  induction l using firstOccurrences.induct with
  | case1 => simp [firstOccurrences]
  | case2 a t ih =>
    rw [firstOccurrences]
    refine List.nodup_cons.mpr ⟨?_, ih⟩
    rw [mem_firstOccurrences]
    simp [List.mem_filter]

lemma buildSourcesAux_map_id (chunks : List Chunk) :
    ∀ seen : List String,
      (buildSourcesAux chunks seen).map (fun s => s.document_id) =
        firstOccurrences
          ((chunks.map (fun c => c.document_id)).filter (fun x => decide (x ∉ seen))) := by
  induction chunks with
  | nil => intro seen; simp [buildSourcesAux, firstOccurrences]
  | cons c rest ih =>
    intro seen
    by_cases h : c.document_id ∈ seen
    · rw [buildSourcesAux, if_pos h]
      have hp : decide (c.document_id ∉ seen) = false := by simp [h]
      simp only [List.map_cons, List.filter_cons, hp, Bool.false_eq_true, if_false]
      exact ih seen
    · rw [buildSourcesAux, if_neg h]
      have hp : decide (c.document_id ∉ seen) = true := by simp [h]
      simp only [List.map_cons, List.filter_cons, hp, if_true]
      rw [firstOccurrences]
      simp only [List.map_cons, List.cons.injEq, true_and]
      rw [ih (c.document_id :: seen)]
      congr 1
      rw [List.filter_filter]
      apply List.filter_congr
      intro x _
      simp only [List.mem_cons, not_or, decide_not]
      cases hxe : decide (x = c.document_id) <;> cases hxs : decide (x ∈ seen) <;> simp_all

/-- C6 (confirmed): the sources list contains exactly one entry per
distinct document_id of the filtered chunks, in first-occurrence (ranked)
order, and never two entries with the same document_id. -/
theorem c6_sources_dedup (chunks : List Chunk) :
    (buildSources chunks).map (fun s => s.document_id) =
      firstOccurrences (chunks.map (fun c => c.document_id)) ∧
    ((buildSources chunks).map (fun s => s.document_id)).Nodup ∧
    ∀ d, (d ∈ (buildSources chunks).map (fun s => s.document_id) ↔
      d ∈ chunks.map (fun c => c.document_id)) := by
  have hmain : (buildSources chunks).map (fun s => s.document_id) =
      firstOccurrences (chunks.map (fun c => c.document_id)) := by
    rw [buildSources, buildSourcesAux_map_id chunks []]
    congr 1
    apply List.filter_eq_self.mpr
    intro x _
    simp
  refine ⟨hmain, ?_, ?_⟩
  · rw [hmain]; exact nodup_firstOccurrences _
  · intro d
    rw [hmain]
    exact mem_firstOccurrences _ d

/-- The Supabase tables consulted by routes_chat.ask_question lines 23-47
(user_categories and document_categories as lists of foreign-key pairs),
together with the documents table (the full corpus) needed to state the
admin claim. -/
structure AskDB where
  user_categories : List (String × String)
  document_categories : List (String × String)
  documents : List String
  deriving DecidableEq

/-- Lines 23-24 of ask_question: the category ids linked to the user. -/
def userCategoryIds (db : AskDB) (user_id : String) : List String :=
  (db.user_categories.filter (fun p => decide (p.1 = user_id))).map (fun p => p.2)

/-- Lines 33-38 of ask_question: the caller-supplied category filter
restricted to the user's own categories, falling back to the full user
category set when that restriction is empty.  A missing filter or an empty
filter list is falsy in Python, so both use the user's full set. -/
def allowedCategories (userCatIds : List String) (filters : Option (List String)) :
    List String :=
  match filters with
  | none => userCatIds
  | some fs =>
    if fs.isEmpty then userCatIds
    else
      let inter := fs.filter (fun c => decide (c ∈ userCatIds))
      if inter.isEmpty then userCatIds else inter

/-- Lines 23-47 of ask_question: resolve the document ids the question may
draw evidence from.  The user's role is available in TokenData but never
consulted.  When the user has no category links the endpoint returns early
with the no-categories answer, so the resolved access set is empty;
otherwise the documents linked to any allowed category are collected
(list(set(...)) modelled as dedup). -/
def resolveAccess (db : AskDB) (user_id : String) (role : String)
    (filters : Option (List String)) : List String :=
  let userCatIds := userCategoryIds db user_id
  if userCatIds.isEmpty then []
  else
    let cats := allowedCategories userCatIds filters
    ((db.document_categories.filter (fun p => decide (p.2 ∈ cats))).map
      (fun p => p.1)).dedup

/-- C1 (corrected): the access resolution of ask_question never consults
the user's role — the resolved document set is identical for every role —
and a user with no category assignments (admin included) resolves to the
empty access set, not the full corpus. -/
theorem c1_role_ignored (db : AskDB) (user_id : String) (role role2 : String)
    (filters : Option (List String)) :
    resolveAccess db user_id role filters = resolveAccess db user_id role2 filters ∧
    (userCategoryIds db user_id = [] → resolveAccess db user_id role filters = []) := by
  constructor
  · rfl
  · intro h
    simp [resolveAccess, h]

/-- A concrete access-control store: one document d1 linked to category c1
and a user u1 (of whatever role) linked to no category at all. -/
def storeNoCats : AskDB :=
  { user_categories := [], document_categories := [("d1", "c1")],
    documents := ["d1"] }

/-- C1 witness: the role-ignored theorem applied at a concrete store in
which the admin user has no category links. -/
theorem c1_role_ignored_witness :
    resolveAccess storeNoCats "u1" "admin" none =
      resolveAccess storeNoCats "u1" "medewerker" none ∧
    resolveAccess storeNoCats "u1" "admin" none = [] :=
  ⟨(c1_role_ignored storeNoCats "u1" "admin" "medewerker" none).1,
   (c1_role_ignored storeNoCats "u1" "admin" "medewerker" none).2 (by decide)⟩

/-- C1 counterexample: an admin with no category assignments resolves to
the empty access set even though the corpus contains a document, so the
ask operation does not give an admin the full document set. -/
theorem c1_counterexample :
    resolveAccess storeNoCats "u1" "admin" none = [] ∧
    "d1" ∈ storeNoCats.documents ∧
    "d1" ∉ resolveAccess storeNoCats "u1" "admin" none := by
  refine ⟨by decide, by decide, by decide⟩

/-- C8 (confirmed): the categories used for retrieval are the intersection
of the caller's filter with the user's category set; when that intersection
is empty (including when the filter itself is empty or absent) the filter
is ignored and the user's full category set is used. -/
theorem c8_filter_intersection (userCatIds fs : List String) :
    (∀ c, c ∈ fs.filter (fun c => decide (c ∈ userCatIds)) ↔
      c ∈ fs ∧ c ∈ userCatIds) ∧
    (fs.filter (fun c => decide (c ∈ userCatIds)) ≠ [] →
      allowedCategories userCatIds (some fs) =
        fs.filter (fun c => decide (c ∈ userCatIds))) ∧
    (fs.filter (fun c => decide (c ∈ userCatIds)) = [] →
      allowedCategories userCatIds (some fs) = userCatIds) ∧
    allowedCategories userCatIds none = userCatIds := by
  refine ⟨?_, ?_, ?_, rfl⟩
  · intro c
    rw [List.mem_filter]
    simp
  · intro hne
    have hfs : fs.isEmpty = false := by
      cases hfs : fs.isEmpty
      · rfl
      · rw [List.isEmpty_iff] at hfs
        subst hfs
        simp at hne
    have hint : (fs.filter (fun c => decide (c ∈ userCatIds))).isEmpty = false := by
      cases hint : (fs.filter (fun c => decide (c ∈ userCatIds))).isEmpty
      · rfl
      · rw [List.isEmpty_iff] at hint
        exact absurd hint hne
    simp [allowedCategories, hfs, hint]
  · intro he
    by_cases hfs : fs.isEmpty
    · simp [allowedCategories, hfs]
    · simp [allowedCategories, hfs, he]

/-- C8 witness: the intersection theorem applied at concrete category
sets, covering both the non-empty-intersection and fallback branches. -/
theorem c8_filter_intersection_witness :
    allowedCategories ["c1"] (some ["c1", "c2"]) =
      (["c1", "c2"].filter (fun c => decide (c ∈ (["c1"] : List String)))) ∧
    allowedCategories ["c1"] (some ["c9"]) = ["c1"] :=
  ⟨(c8_filter_intersection ["c1"] ["c1", "c2"]).2.1 (by decide),
   (c8_filter_intersection ["c1"] ["c9"]).2.2.1 (by decide)⟩

/-- The response body returned by ask_question (models.ChatResponse). -/
structure ChatResponseR where
  answer : String
  confidence : ℚ
  sources : List SourceDocument
  deriving DecidableEq

/-- A chat_history row as inserted by ask_question lines 154-160. -/
structure ChatHistoryRow where
  user_id : String
  question : String
  answer : String
  confidence_score : ℚ
  source_documents : List SourceDocument
  deriving DecidableEq

/-- The tail of ask_question (lines 154-168): after the answer is
generated, the chat_history insert is executed and then the response is
returned.  The insert is modelled as a fallible operation supplied by the
caller; the source wraps it in no try/except, so a raised error propagates
out of the endpoint. -/
def persistAndRespond (insert : ChatHistoryRow → Except String Unit)
    (user_id question answer : String) (confidence : ℚ)
    (sources : List SourceDocument) : Except String ChatResponseR :=
  match insert { user_id := user_id, question := question, answer := answer,
                 confidence_score := confidence, source_documents := sources } with
  | Except.error e => Except.error e
  | Except.ok _ =>
      Except.ok { answer := answer, confidence := confidence, sources := sources }

/-- C2 (corrected): the Interaction Ledger insert in ask_question is not
guarded: when the insert raises, the error propagates and the request
fails instead of still returning the computed answer; the response is
returned exactly when the insert succeeds. -/
theorem c2_insert_failure_propagates
    (insert : ChatHistoryRow → Except String Unit)
    (user_id question answer : String) (confidence : ℚ)
    (sources : List SourceDocument) (e : String) :
    (insert { user_id := user_id, question := question, answer := answer,
              confidence_score := confidence, source_documents := sources } =
          Except.error e →
      persistAndRespond insert user_id question answer confidence sources =
        Except.error e) ∧
    (insert { user_id := user_id, question := question, answer := answer,
              confidence_score := confidence, source_documents := sources } =
          Except.ok () →
      persistAndRespond insert user_id question answer confidence sources =
        Except.ok { answer := answer, confidence := confidence, sources := sources }) := by
  constructor
  · intro h
    simp [persistAndRespond, h]
  · intro h
    simp [persistAndRespond, h]

/-- C2 witness: the propagation theorem applied to a concrete always
failing insert and a concrete always succeeding insert. -/
theorem c2_insert_failure_propagates_witness :
    persistAndRespond (fun _ => Except.error "ledger down") "u1" "q" "a" 90 [] =
      Except.error "ledger down" ∧
    persistAndRespond (fun _ => Except.ok ()) "u1" "q" "a" 90 [] =
      Except.ok { answer := "a", confidence := 90, sources := [] } :=
  ⟨(c2_insert_failure_propagates (fun _ => Except.error "ledger down")
      "u1" "q" "a" 90 [] "ledger down").1 rfl,
   (c2_insert_failure_propagates (fun _ => Except.ok ())
      "u1" "q" "a" 90 [] "unused").2 rfl⟩

/-- C2 counterexample: when the insert fails, the endpoint does not return
the already computed response; the error is what comes back. -/
theorem c2_counterexample :
    persistAndRespond (fun _ => Except.error "ledger down") "u1" "q" "a" 90 [] =
      Except.error "ledger down" ∧
    persistAndRespond (fun _ => Except.error "ledger down") "u1" "q" "a" 90 [] ≠
      Except.ok { answer := "a", confidence := 90, sources := [] } := by
  constructor
  · rfl
  · intro h
    simp [persistAndRespond] at h

/-- The possible HTTP errors of routes_chat.submit_feedback. -/
inductive ApiError where
  | notFound
  | forbidden
  deriving DecidableEq

/-- The HTTP status attached to each HTTPException in submit_feedback. -/
def statusCode : ApiError → ℕ
  | ApiError.notFound => 404
  | ApiError.forbidden => 403

/-- A chat_history row as seen by submit_feedback. -/
structure ChatRecord where
  id : String
  user_id : String
  feedback : Option ℤ
  deriving DecidableEq

/-- The row update performed by submit_feedback line 206: every row whose
id matches gets its feedback column overwritten. -/
def updateFeedback (db : List ChatRecord) (chat_id : String) (value : ℤ) :
    List ChatRecord :=
  db.map (fun s => if s.id = chat_id then { s with feedback := some value } else s)

/-- Models routes_chat.submit_feedback (lines 189-209): select the chat row by id
(404 when absent), check ownership against the first returned row (403 when
it belongs to another user), otherwise overwrite the feedback column. -/
def submit_feedback (db : List ChatRecord) (chat_id user_id : String) (value : ℤ) :
    Except ApiError (List ChatRecord) :=
  match db.filter (fun r => decide (r.id = chat_id)) with
  | [] => Except.error ApiError.notFound
  | r :: _ =>
    if r.user_id ≠ user_id then Except.error ApiError.forbidden
    else Except.ok (updateFeedback db chat_id value)

lemma updateFeedback_updateFeedback (db : List ChatRecord) (chat_id : String)
    (v v2 : ℤ) :
    updateFeedback (updateFeedback db chat_id v) chat_id v2 =
      updateFeedback db chat_id v2 := by
  simp only [updateFeedback, List.map_map]
  apply List.map_congr_left
  intro s _
  by_cases h : s.id = chat_id
  · simp [Function.comp, h]
  · simp [Function.comp, h]

lemma filter_updateFeedback (db : List ChatRecord) (chat_id : String) (v : ℤ) :
    (updateFeedback db chat_id v).filter (fun r => decide (r.id = chat_id)) =
      (db.filter (fun r => decide (r.id = chat_id))).map
        (fun s => if s.id = chat_id then { s with feedback := some v } else s) := by
  simp only [updateFeedback, List.filter_map]
  congr 1
  apply List.filter_congr
  intro s _
  by_cases h : s.id = chat_id
  · simp [Function.comp, h]
  · simp [Function.comp, h]

/-- C9 (confirmed): submit_feedback returns NotFound (404) when no record
with the given id exists, Forbidden (403) when the first matching record
belongs to another user, and otherwise overwrites the record's feedback
field; submitting feedback again ends in the state of the last submitted
value alone (idempotent end-state). -/
theorem c9_feedback_semantics (db : List ChatRecord) (chat_id user_id : String)
    (v v2 : ℤ) :
    (db.filter (fun r => decide (r.id = chat_id)) = [] →
      submit_feedback db chat_id user_id v = Except.error ApiError.notFound ∧
      statusCode ApiError.notFound = 404) ∧
    (∀ r rest, db.filter (fun r => decide (r.id = chat_id)) = r :: rest →
      r.user_id ≠ user_id →
      submit_feedback db chat_id user_id v = Except.error ApiError.forbidden ∧
      statusCode ApiError.forbidden = 403) ∧
    (∀ r rest, db.filter (fun r => decide (r.id = chat_id)) = r :: rest →
      r.user_id = user_id →
      submit_feedback db chat_id user_id v =
        Except.ok (updateFeedback db chat_id v) ∧
      (∀ s ∈ updateFeedback db chat_id v, s.id = chat_id →
        s.feedback = some v) ∧
      submit_feedback (updateFeedback db chat_id v) chat_id user_id v2 =
        Except.ok (updateFeedback db chat_id v2)) := by
  refine ⟨?_, ?_, ?_⟩
  · intro h
    refine ⟨?_, rfl⟩
    simp only [submit_feedback, h]
  · intro r rest h hne
    refine ⟨?_, rfl⟩
    simp only [submit_feedback, h, if_pos hne]
  · intro r rest h howner
    have hfirst : submit_feedback db chat_id user_id v =
        Except.ok (updateFeedback db chat_id v) := by
      simp only [submit_feedback, h]
      rw [if_neg (by simp [howner])]
    refine ⟨hfirst, ?_, ?_⟩
    · intro s hs hid
      simp only [updateFeedback, List.mem_map] at hs
      rcases hs with ⟨t, _, rfl⟩
      by_cases ht : t.id = chat_id
      · simp [ht]
      · simp only [ht, if_false] at hid ⊢
    · have hr : r.id = chat_id := by
        have : r ∈ db.filter (fun r => decide (r.id = chat_id)) := by
          rw [h]; exact List.mem_cons_self r rest
        exact of_decide_eq_true (List.mem_filter.mp this).2
      have hfilter2 : (updateFeedback db chat_id v).filter
          (fun r => decide (r.id = chat_id)) =
          ({ r with feedback := some v }) ::
            rest.map (fun s => if s.id = chat_id then
              { s with feedback := some v } else s) := by
        rw [filter_updateFeedback, h]
        simp [hr]
      simp only [submit_feedback, hfilter2]
      rw [if_neg (by simp [howner])]
      rw [updateFeedback_updateFeedback]

/-- C9 witness: the feedback theorem applied at a concrete one-record
store, covering the missing-record, foreign-record and owner cases. -/
theorem c9_feedback_semantics_witness :
    submit_feedback [{ id := "r1", user_id := "alice", feedback := none }]
        "rX" "alice" 1 = Except.error ApiError.notFound ∧
    submit_feedback [{ id := "r1", user_id := "alice", feedback := none }]
        "r1" "bob" 1 = Except.error ApiError.forbidden ∧
    submit_feedback [{ id := "r1", user_id := "alice", feedback := none }]
        "r1" "alice" 1 =
      Except.ok (updateFeedback
        [{ id := "r1", user_id := "alice", feedback := none }] "r1" 1) :=
  ⟨((c9_feedback_semantics [{ id := "r1", user_id := "alice", feedback := none }]
      "rX" "alice" 1 1).1 (by decide)).1,
   ((c9_feedback_semantics [{ id := "r1", user_id := "alice", feedback := none }]
      "r1" "bob" 1 1).2.1 { id := "r1", user_id := "alice", feedback := none } []
      (by decide) (by decide)).1,
   ((c9_feedback_semantics [{ id := "r1", user_id := "alice", feedback := none }]
      "r1" "alice" 1 1).2.2 { id := "r1", user_id := "alice", feedback := none } []
      (by decide) rfl).1⟩

end H2W
